import Mathlib

/-!
# Verification of the `Tracer` core (src/ddtrace/tracer.py)

A shallow embedding of the tracing client in `src/ddtrace/tracer.py`.
Mutable tracer state becomes an explicit `TracerState` record threaded
through the operations; the thread-local "current span" buffer becomes a
function from execution-context identifiers to an optional span; the
exporter boundary (`writer.write(spans, services)`) becomes an append to
an observation log (`exported`), and every invocation of the tracer's own
`write` method is logged in `writeCalls` so that "handed to write" is
observable.

`Span`, `ThreadLocalSpanBuffer`, `AllSampler` and `AgentWriter` live in
modules that are not part of the sources here; the few facts about them
the tracer relies on (identifier generation at span creation, the default
sampled flag, per-context isolation of the buffer, finish delegating to
`Tracer.record`) are modelled from the spec and marked as such.
-/

/-- The service-registry record `{app, app_type}` kept by
`Tracer.set_service_info`. -/
structure ServiceInfo where
  app : String
  app_type : String
deriving Repr, DecidableEq

/-- Modelled from the spec: `AgentWriter(hostname, port)` (the exporter,
module not in the sources) is opaque transport; only its construction
arguments matter to the tracer, so it is modelled as that pair.  A fresh
`AgentWriter` value is a fresh exporter instance. -/
structure AgentWriter where
  hostname : String
  port : Nat
deriving Repr, DecidableEq

/-- Modelled from the spec: a `Span` (module not in the sources) carries
identity (`trace_id`, `span_id`, generated at creation), hierarchy
(`parent_id` plus the `_parent` object reference used during the
finish-time walk), the attributes `name`/`service`/`resource`/`span_type`,
and the `sampled` flag.  `parent` is recursive because `Tracer.record`
reads `span._parent` and stores that span back into the buffer. -/
inductive Span where
  | mk (name : String) (service : Option String) (resource : Option String)
       (span_type : Option String) (trace_id : Nat) (span_id : Nat)
       (parent_id : Option Nat) (sampled : Bool) (parent : Option Span)

def Span.name : Span → String
  | .mk n _ _ _ _ _ _ _ _ => n

def Span.service : Span → Option String
  | .mk _ s _ _ _ _ _ _ _ => s

def Span.resource : Span → Option String
  | .mk _ _ r _ _ _ _ _ _ => r

def Span.span_type : Span → Option String
  | .mk _ _ _ t _ _ _ _ _ => t

def Span.trace_id : Span → Nat
  | .mk _ _ _ _ tid _ _ _ _ => tid

def Span.span_id : Span → Nat
  | .mk _ _ _ _ _ sid _ _ _ => sid

def Span.parent_id : Span → Option Nat
  | .mk _ _ _ _ _ _ pid _ _ => pid

def Span.sampled : Span → Bool
  | .mk _ _ _ _ _ _ _ sa _ => sa

def Span.parent : Span → Option Span
  | .mk _ _ _ _ _ _ _ _ p => p

/-- The sampling policy boundary: `sampler.sample(span)` inspects the root
span and decides its `sampled` flag, so it is modelled as a function from
the freshly built span to the decided flag. -/
def Sampler : Type := Span → Bool

/-- Modelled from the spec: the default policy `AllSampler` always marks
sampled. -/
def AllSampler : Sampler := fun _ => true

/-- The whole mutable state of one `Tracer` object.  `span_buffer` is the
`ThreadLocalSpanBuffer`: one slot per execution context, modelled as a
function from context ids.  `spans` is the shared `_spans` accumulator
(one flat list for all traces, exactly as in the source).  `exported`
records every batch handed over the exporter boundary together with the
service registry passed along; `writeCalls` records the argument of every
call to the tracer's `write` method. -/
structure TracerState where
  enabled : Bool
  writer : Option AgentWriter
  sampler : Sampler
  spans : List Span
  span_buffer : Nat → Option Span
  services : List (String × ServiceInfo)
  debug_logging : Bool
  next_id : Nat
  exported : List (List Span × List (String × ServiceInfo))
  writeCalls : List (List Span)

def DEFAULT_HOSTNAME : String := "localhost"

def DEFAULT_PORT : Nat := 7777

/-- Python `a or b` on an optional string: `None` and `""` are falsy. -/
def pyOrStr (a b : Option String) : Option String :=
  match a with
  | some s => if s = "" then b else some s
  | none => b

/-- Python `a or d` where `a` is an optional string and `d` a string
default (`hostname or self.DEFAULT_HOSTNAME`). -/
def pyOrStrD (a : Option String) (d : String) : String :=
  match a with
  | some s => if s = "" then d else s
  | none => d

/-- Python `a or d` where `a` is an optional integer and `d` an integer
default (`port or self.DEFAULT_PORT`); `0` is falsy. -/
def pyOrNatD (a : Option Nat) (d : Nat) : Nat :=
  match a with
  | some n => if n = 0 then d else n
  | none => d

/-- `Tracer.configure(enabled=None, hostname=None, port=None, sampler=None)`:
each block of the source in order.  A new `AgentWriter` is built whenever
`hostname is not None or port is not None`, from
`hostname or DEFAULT_HOSTNAME` and `port or DEFAULT_PORT`. -/
def configure (enabled : Option Bool) (hostname : Option String)
    (port : Option Nat) (sampler : Option Sampler)
    (s : TracerState) : TracerState :=
  let s1 := match enabled with
    | some e => { s with enabled := e }
    | none => s
  let s2 := if hostname.isSome || port.isSome then
      { s1 with writer := some ⟨pyOrStrD hostname DEFAULT_HOSTNAME,
                               pyOrNatD port DEFAULT_PORT⟩ }
    else s1
  match sampler with
  | some sp => { s2 with sampler := sp }
  | none => s2

/-- The state of a freshly constructed `Tracer`: `__init__` applies
`configure(enabled=True, hostname=DEFAULT_HOSTNAME, port=DEFAULT_PORT,
sampler=AllSampler())` and then zeroes the accumulator, buffer, service
registry and debug flag.  The identifier counter starts at 0. -/
def initState : TracerState :=
  configure (some true) (some DEFAULT_HOSTNAME) (some DEFAULT_PORT)
    (some AllSampler)
    { enabled := false
      writer := none
      sampler := AllSampler
      spans := []
      span_buffer := fun _ => none
      services := []
      debug_logging := false
      next_id := 0
      exported := []
      writeCalls := [] }

/-- `Tracer.write(spans)`: return at once on an empty list (`debug_logging`
only logs and has no state effect); if enabled, hand the batch plus the
service registry to `self.writer.write`, modelled as appending to the
`exported` log.  Every invocation is recorded in `writeCalls` first. -/
def write (spans : List Span) (s : TracerState) : TracerState :=
  let s0 := { s with writeCalls := s.writeCalls ++ [spans] }
  if spans.isEmpty then s0
  else if s0.enabled then
    { s0 with exported := s0.exported ++ [(spans, s0.services)] }
  else s0

/-- `Tracer.record(span)`, called by the span's own finish operation from
execution context `ctx`.  Inside the `_spans_lock` critical section:
append the span to the shared accumulator, restore `span._parent` as the
context's current span, and if the span has no parent take the whole
accumulator and clear it.  Outside the lock: `if self.writer and
span.sampled: self.write(spans)`. -/
def record (ctx : Nat) (span : Span) (s : TracerState) : TracerState :=
  let s1 := { s with spans := s.spans ++ [span] }
  let parent := span.parent
  let s2 := { s1 with span_buffer := fun c => if c = ctx then parent else s1.span_buffer c }
  let pr := if parent.isNone then (s2.spans, { s2 with spans := ([] : List Span) })
            else (([] : List Span), s2)
  if pr.2.writer.isSome && span.sampled then write pr.1 pr.2 else pr.2

/-- `Tracer.trace(name, service=None, resource=None, span_type=None)` from
execution context `ctx`.  With a current span: build a child copying
`trace_id`, pointing `parent_id` at the parent's `span_id`, taking
`service or parent.service`, linking `_parent` and copying `sampled`.
Without one: build a root with the arguments as given (fresh `trace_id`
and `span_id` are modelled from the spec as drawn from the monotone
counter; `sampled` defaults to true) and let the sampler decide its
`sampled` flag.  Either way the new span becomes the context's current
span. -/
def trace (ctx : Nat) (name : String)
    (service resource span_type : Option String)
    (s : TracerState) : Span × TracerState :=
  match s.span_buffer ctx with
  | some parent =>
      let span := Span.mk name (pyOrStr service parent.service) resource
        span_type parent.trace_id s.next_id (some parent.span_id)
        parent.sampled (some parent)
      (span, { s with
        next_id := s.next_id + 1
        span_buffer := fun c => if c = ctx then some span else s.span_buffer c })
  | none =>
      let span0 := Span.mk name service resource span_type s.next_id
        (s.next_id + 1) none true none
      let span := Span.mk name service resource span_type s.next_id
        (s.next_id + 1) none (s.sampler span0) none
      (span, { s with
        next_id := s.next_id + 2
        span_buffer := fun c => if c = ctx then some span else s.span_buffer c })

/-- `Tracer.current_span()` for context `ctx`: a pure read of the buffer. -/
def current_span (ctx : Nat) (s : TracerState) : Option Span :=
  s.span_buffer ctx

/-- `Tracer.clear_current_span()` for context `ctx`. -/
def clear_current_span (ctx : Nat) (s : TracerState) : TracerState :=
  { s with span_buffer := fun c => if c = ctx then none else s.span_buffer c }

/-- Python dict assignment `self._services[service] = {...}`:
overwrite-on-conflict, append otherwise. -/
def dictSet (m : List (String × ServiceInfo)) (k : String) (v : ServiceInfo) :
    List (String × ServiceInfo) :=
  match m with
  | [] => [(k, v)]
  | (k0, v0) :: rest => if k0 = k then (k, v) :: rest else (k0, v0) :: dictSet rest k v

/-- `Tracer.set_service_info(service, app, app_type)`. -/
def set_service_info (service app app_type : String) (s : TracerState) :
    TracerState :=
  { s with services := dictSet s.services service ⟨app, app_type⟩ }

/-- `span_name = func.__name__ if name is None else name` in `Tracer.wrap`. -/
def wrap_span_name (name : Option String) (funcName : String) : String :=
  match name with
  | some n => n
  | none => funcName

/-- The wrapper `Tracer.wrap(...)` builds around `func`, at one call with
argument `a` from context `ctx`.  The wrapped function is modelled as
`f : α → Except ε β` (`Except.error` is a raised exception).  The body is
`with self.trace(span_name, ...): func(*args, **kwargs)`: the span is
opened before the call and — modelled from the spec, since the span's
context-manager exit lives in the missing span module — finished (via
`record`) on both the normal and the error exit, with the error then
propagating.  The `with` block discards `func`'s result and the wrapper
body has no `return`, so on the normal path the wrapper returns Python
`None`, modelled as `Except.ok none`. -/
def func_wrapper {α β ε : Type} (ctx : Nat) (span_name : String)
    (service resource span_type : Option String) (f : α → Except ε β)
    (a : α) (s : TracerState) : Except ε (Option β) × TracerState :=
  let pr := trace ctx span_name service resource span_type s
  match f a with
  | Except.ok _ => (Except.ok none, record ctx pr.1 pr.2)
  | Except.error e => (Except.error e, record ctx pr.1 pr.2)

/-! ## The two-context, two-trace scenario of the spec's test property

Context 0 opens root `A1` then child `A2`; context 1 opens root `B1` then
child `B2`; the spans finish in the order `A2, B2, B1, A1`. -/

def c1_a1 : Span := (trace 0 "A1" none none none initState).1

def c1_s1 : TracerState := (trace 0 "A1" none none none initState).2

def c1_a2 : Span := (trace 0 "A2" none none none c1_s1).1

def c1_s2 : TracerState := (trace 0 "A2" none none none c1_s1).2

def c1_b1 : Span := (trace 1 "B1" none none none c1_s2).1

def c1_s3 : TracerState := (trace 1 "B1" none none none c1_s2).2

def c1_b2 : Span := (trace 1 "B2" none none none c1_s3).1

def c1_s4 : TracerState := (trace 1 "B2" none none none c1_s3).2

def c1_final : TracerState :=
  record 0 c1_a1 (record 1 c1_b1 (record 1 c1_b2 (record 0 c1_a2 c1_s4)))

/-- C1: the claim states that the two concurrent traces are delivered as
`[A2, A1]` and `[B2, B1]` with no cross-trace mixing.  The code keeps one
flat `_spans` list shared by all traces, so when `B1` (the first root to
finish) records, it takes everything accumulated so far: the first
delivery is `[A2, B2, B1]`, mixing a span of trace A (trace id of `A1`)
into trace B's batch, and the second delivery is `[A1]` alone.  This
theorem evaluates the code on exactly the claimed scenario and exhibits
the mixed batch, refuting the claim. -/
theorem record_shared_accumulator_mixes_traces :
    c1_final.exported.map (fun d => d.1.map Span.name) =
      [["A2", "B2", "B1"], ["A1"]] ∧
    c1_final.exported.map (fun d => d.1.map Span.trace_id) =
      [[c1_a1.trace_id, c1_b1.trace_id, c1_b1.trace_id], [c1_a1.trace_id]] ∧
    c1_a1.trace_id ≠ c1_b1.trace_id ∧
    c1_final.exported.length = 2 :=
  ⟨rfl, rfl, by decide, rfl⟩

/-! ## The wrapped-function scenario -/

def c2_ok : Unit → Except String Nat := fun _ => Except.ok 42

def c2_err : Unit → Except String Nat := fun _ => Except.error "boom"

/-- C2: the claim states the wrapper returns the wrapped function's return
value unchanged.  The wrapper's body is `with self.trace(...):
func(*args, **kwargs)` with no `return`, so the wrapper always returns
Python `None`: on a function returning `42` the wrapper's caller receives
`none`, not `42` — refuting the return-value part of the claim.  The
remaining parts hold: the argument is forwarded, an error still
propagates (`Except.error "boom"` reaches the caller), and the span is
finished despite the error (its record ran: the batch `[["g"]]` was
released and the accumulator is empty). -/
theorem wrap_discards_return_value :
    (func_wrapper 0 "f" none none none c2_ok () initState).1 = Except.ok none ∧
    c2_ok () = Except.ok 42 ∧
    (func_wrapper 0 "g" none none none c2_err () initState).1 =
      Except.error "boom" ∧
    (func_wrapper 0 "g" none none none c2_err () initState).2.exported.map
      (fun d => d.1.map Span.name) = [["g"]] ∧
    (func_wrapper 0 "g" none none none c2_err () initState).2.spans = [] :=
  ⟨rfl, rfl, rfl, rfl, rfl⟩

/-- C3 counterexample: configuring only a port (1234) and then only a
hostname ("remote") does not preserve the previously configured port:
the second call rebuilds the writer as `("remote", DEFAULT_PORT)`,
resetting the port to 7777, because `configure` fills every omitted
endpoint field with its default rather than the prior value. -/
theorem configure_hostname_only_resets_port :
    (configure none none (some 1234) none initState).writer =
      some ⟨DEFAULT_HOSTNAME, 1234⟩ ∧
    (configure none (some "remote") none none
        (configure none none (some 1234) none initState)).writer =
      some ⟨"remote", DEFAULT_PORT⟩ ∧
    DEFAULT_PORT ≠ 1234 :=
  ⟨rfl, rfl, by decide⟩

/-- C3 (amended): `configure` is a partial update for `enabled` and
`sampler`; supplying a hostname or a port replaces the Exporter with a
new instance built from the supplied values, substituting the defaults
(`localhost`, 7777) — not the prior values — for the omitted or falsy
ones; when both endpoint parameters are omitted the writer instance is
untouched; no other tracer state is affected. -/
theorem configure_partial_update (e : Option Bool) (h : Option String)
    (p : Option Nat) (sp : Option Sampler) (s : TracerState) :
    (configure e h p sp s).enabled = e.getD s.enabled ∧
    (configure e h p sp s).sampler = sp.getD s.sampler ∧
    (configure e h p sp s).writer =
      (if h.isSome || p.isSome
       then some ⟨pyOrStrD h DEFAULT_HOSTNAME, pyOrNatD p DEFAULT_PORT⟩
       else s.writer) ∧
    (configure e h p sp s).spans = s.spans ∧
    (configure e h p sp s).span_buffer = s.span_buffer ∧
    (configure e h p sp s).services = s.services ∧
    (configure e h p sp s).exported = s.exported ∧
    (configure e h p sp s).writeCalls = s.writeCalls := by
  cases e <;> cases sp <;> by_cases hc : h.isSome || p.isSome <;>
    simp [configure, hc]

/-- C4: delivery to the Exporter happens only at the `record` call of a
span with no parent.  The `exported` log grows (by exactly one batch: the
entire accumulated list, ending with the root itself) precisely when the
recorded span is parentless, sampled, a writer is configured and the
tracer is enabled; recording a span that has a parent never extends the
log, no matter what has accumulated.  The accumulator is cleared at the
root's record, so no span can be delivered a second time. -/
theorem record_delivers_only_at_root (ctx : Nat) (span : Span)
    (s : TracerState) :
    (record ctx span s).exported =
      (if span.parent.isNone && s.writer.isSome && span.sampled && s.enabled
       then s.exported ++ [(s.spans ++ [span], s.services)]
       else s.exported) ∧
    (record ctx span s).spans =
      (if span.parent.isNone then [] else s.spans ++ [span]) := by
  cases hp : span.parent <;>
    by_cases hw : s.writer.isSome <;>
    by_cases hs : span.sampled <;>
    by_cases he : s.enabled <;>
    simp [record, write, hp, hw, hs, he, Option.isNone]

/-- C10: recording a parentless span always empties the shared accumulator
inside the critical section, whatever the sampling flag, writer or
enabled state; the taken spans are then either handed to `write` (only
when a writer is configured and the span is sampled) and exported (only
when additionally enabled), or discarded — the state retains them
nowhere, so after any root's record the accumulator holds no span
recorded before it. -/
theorem record_root_clears_accumulator (ctx : Nat) (span : Span)
    (s : TracerState) (h : span.parent = none) :
    (record ctx span s).spans = [] ∧
    (record ctx span s).writeCalls =
      (if s.writer.isSome && span.sampled
       then s.writeCalls ++ [s.spans ++ [span]]
       else s.writeCalls) ∧
    (record ctx span s).exported =
      (if s.writer.isSome && span.sampled && s.enabled
       then s.exported ++ [(s.spans ++ [span], s.services)]
       else s.exported) := by
  by_cases hw : s.writer.isSome <;>
    by_cases hs : span.sampled <;>
    by_cases he : s.enabled <;>
    simp [record, write, h, hw, hs, he, Option.isNone]

/-- C10 witness: an unsampled root recorded on a disabled tracer with a
non-empty accumulator — the accumulator is emptied and the taken spans
are discarded without touching `write` or the Exporter. -/
theorem record_root_clears_accumulator_witness :
    (record 0 (Span.mk "r" none none none 0 1 none false none)
        { initState with
            spans := [Span.mk "old" none none none 0 3 none true none]
            enabled := false }).spans = [] ∧
    (record 0 (Span.mk "r" none none none 0 1 none false none)
        { initState with
            spans := [Span.mk "old" none none none 0 3 none true none]
            enabled := false }).writeCalls =
      (if ({ initState with
              spans := [Span.mk "old" none none none 0 3 none true none]
              enabled := false } : TracerState).writer.isSome &&
          (Span.mk "r" none none none 0 1 none false none).sampled
       then ({ initState with
              spans := [Span.mk "old" none none none 0 3 none true none]
              enabled := false } : TracerState).writeCalls ++
         [({ initState with
              spans := [Span.mk "old" none none none 0 3 none true none]
              enabled := false } : TracerState).spans ++
            [Span.mk "r" none none none 0 1 none false none]]
       else ({ initState with
              spans := [Span.mk "old" none none none 0 3 none true none]
              enabled := false } : TracerState).writeCalls) ∧
    (record 0 (Span.mk "r" none none none 0 1 none false none)
        { initState with
            spans := [Span.mk "old" none none none 0 3 none true none]
            enabled := false }).exported =
      (if ({ initState with
              spans := [Span.mk "old" none none none 0 3 none true none]
              enabled := false } : TracerState).writer.isSome &&
          (Span.mk "r" none none none 0 1 none false none).sampled &&
          ({ initState with
              spans := [Span.mk "old" none none none 0 3 none true none]
              enabled := false } : TracerState).enabled
       then ({ initState with
              spans := [Span.mk "old" none none none 0 3 none true none]
              enabled := false } : TracerState).exported ++
         [(({ initState with
              spans := [Span.mk "old" none none none 0 3 none true none]
              enabled := false } : TracerState).spans ++
            [Span.mk "r" none none none 0 1 none false none],
           ({ initState with
              spans := [Span.mk "old" none none none 0 3 none true none]
              enabled := false } : TracerState).services)]
       else ({ initState with
              spans := [Span.mk "old" none none none 0 3 none true none]
              enabled := false } : TracerState).exported) :=
  record_root_clears_accumulator 0 (Span.mk "r" none none none 0 1 none false none)
    { initState with
        spans := [Span.mk "old" none none none 0 3 none true none]
        enabled := false } rfl

/-! ## Witness fixtures: a tracer with a current span in context 0 -/

def w_parent : Span := (trace 0 "root" (some "web") none none initState).1

def w_parent_state : TracerState := (trace 0 "root" (some "web") none none initState).2

/-- C5: a span created while context `ctx` holds a current span `P` is a
child of `P`: it copies `P`'s `trace_id`, points `parent_id` at `P`'s
`span_id`, copies `P`'s `sampled` flag verbatim (never recomputed), links
`_parent` to `P`, takes `service or parent.service` for its service (so
with no service argument it inherits `P.service` — the `pyOrStr none`
conjunct), and becomes the register's current span before `trace`
returns. -/
theorem trace_child_links_parent (ctx : Nat) (name : String)
    (service resource span_type : Option String) (s : TracerState)
    (P : Span) (h : s.span_buffer ctx = some P) :
    (trace ctx name service resource span_type s).1.trace_id = P.trace_id ∧
    (trace ctx name service resource span_type s).1.parent_id =
      some P.span_id ∧
    (trace ctx name service resource span_type s).1.sampled = P.sampled ∧
    (trace ctx name service resource span_type s).1.parent = some P ∧
    (trace ctx name service resource span_type s).1.service =
      pyOrStr service P.service ∧
    pyOrStr none P.service = P.service ∧
    (trace ctx name service resource span_type s).2.span_buffer ctx =
      some (trace ctx name service resource span_type s).1 := by
  simp [trace, h, Span.trace_id, Span.parent_id, Span.sampled, Span.parent,
    Span.service, pyOrStr]

/-- C5 witness: creating "child" under the fixture parent. -/
theorem trace_child_links_parent_witness :
    (trace 0 "child" none none none w_parent_state).1.trace_id =
      w_parent.trace_id ∧
    (trace 0 "child" none none none w_parent_state).1.parent_id =
      some w_parent.span_id ∧
    (trace 0 "child" none none none w_parent_state).1.sampled =
      w_parent.sampled ∧
    (trace 0 "child" none none none w_parent_state).1.parent =
      some w_parent ∧
    (trace 0 "child" none none none w_parent_state).1.service =
      pyOrStr none w_parent.service ∧
    pyOrStr none w_parent.service = w_parent.service ∧
    (trace 0 "child" none none none w_parent_state).2.span_buffer 0 =
      some (trace 0 "child" none none none w_parent_state).1 :=
  trace_child_links_parent 0 "child" none none none w_parent_state
    w_parent rfl

/-- C9: a supplied but falsy service argument (the empty string) is
treated like an absent one: Python's `service or parent.service` takes
the parent's service, so inheritance is triggered by falsiness, not only
by absence. -/
theorem trace_empty_service_inherits (ctx : Nat) (name : String)
    (resource span_type : Option String) (s : TracerState) (P : Span)
    (h : s.span_buffer ctx = some P) :
    (trace ctx name (some "") resource span_type s).1.service =
      P.service := by
  simp [trace, h, Span.service, pyOrStr]

/-- C9 witness: the fixture parent has service "web"; a child created
with the explicit empty-string service gets "web", not "". -/
theorem trace_empty_service_inherits_witness :
    (trace 0 "child" (some "") none none w_parent_state).1.service =
      w_parent.service :=
  trace_empty_service_inherits 0 "child" none none w_parent_state
    w_parent rfl

/-! ## Witness fixture for root creation: context 7 holds no span and the
accumulator already holds a span of an older trace -/

def c6_state : TracerState :=
  { initState with
      spans := [Span.mk "old" none none none 0 1 none true none]
      next_id := 5 }

/-- C6: a span created while context `ctx` holds no current span is a
root: its `trace_id` is the freshly drawn identifier (distinct from the
trace id of every span already accumulated, given they were drawn
earlier), it has no `parent_id` and no `_parent`, its `service`,
`resource` and `span_type` are exactly the arguments with no inheritance,
its `sampled` flag is exactly the Sampling Policy's decision on the fresh
span (no other component touches it), and it becomes the register's
current span.  The operation is a total function: it always succeeds. -/
theorem trace_root_sampled_by_policy (ctx : Nat) (name : String)
    (service resource span_type : Option String) (s : TracerState)
    (h : s.span_buffer ctx = none)
    (hfresh : s.spans.all (fun t => decide (t.trace_id < s.next_id)) = true) :
    (trace ctx name service resource span_type s).1.trace_id = s.next_id ∧
    (trace ctx name service resource span_type s).1.parent_id = none ∧
    (trace ctx name service resource span_type s).1.parent = none ∧
    (trace ctx name service resource span_type s).1.service = service ∧
    (trace ctx name service resource span_type s).1.resource = resource ∧
    (trace ctx name service resource span_type s).1.span_type = span_type ∧
    (trace ctx name service resource span_type s).1.sampled =
      s.sampler (Span.mk name service resource span_type s.next_id
        (s.next_id + 1) none true none) ∧
    s.spans.all
      (fun t => t.trace_id !=
        (trace ctx name service resource span_type s).1.trace_id) = true ∧
    (trace ctx name service resource span_type s).2.span_buffer ctx =
      some (trace ctx name service resource span_type s).1 := by
  simp only [List.all_eq_true, decide_eq_true_eq] at hfresh
  refine ⟨?_, ?_, ?_, ?_, ?_, ?_, ?_, ?_, ?_⟩ <;>
    simp [trace, h, Span.trace_id, Span.parent_id, Span.parent,
      Span.service, Span.resource, Span.span_type, Span.sampled]
  intro t ht
  exact Nat.ne_of_lt (hfresh t ht)

/-- C6 witness: a root created in the empty context 7 of the fixture
state, whose accumulator holds a span of the older trace 0. -/
theorem trace_root_sampled_by_policy_witness :
    (trace 7 "r" (some "svc") (some "res") (some "db") c6_state).1.trace_id =
      c6_state.next_id ∧
    (trace 7 "r" (some "svc") (some "res") (some "db") c6_state).1.parent_id =
      none ∧
    (trace 7 "r" (some "svc") (some "res") (some "db") c6_state).1.parent =
      none ∧
    (trace 7 "r" (some "svc") (some "res") (some "db") c6_state).1.service =
      some "svc" ∧
    (trace 7 "r" (some "svc") (some "res") (some "db") c6_state).1.resource =
      some "res" ∧
    (trace 7 "r" (some "svc") (some "res") (some "db") c6_state).1.span_type =
      some "db" ∧
    (trace 7 "r" (some "svc") (some "res") (some "db") c6_state).1.sampled =
      c6_state.sampler (Span.mk "r" (some "svc") (some "res") (some "db")
        c6_state.next_id (c6_state.next_id + 1) none true none) ∧
    c6_state.spans.all
      (fun t => t.trace_id !=
        (trace 7 "r" (some "svc") (some "res") (some "db")
          c6_state).1.trace_id) = true ∧
    (trace 7 "r" (some "svc") (some "res") (some "db") c6_state).2.span_buffer 7 =
      some (trace 7 "r" (some "svc") (some "res") (some "db") c6_state).1 :=
  trace_root_sampled_by_policy 7 "r" (some "svc") (some "res") (some "db")
    c6_state rfl (by decide)

/-- C7: a span whose `sampled` flag is false is never handed to `write`
(nor, a fortiori, to the Exporter) by `record` — the `self.writer and
span.sampled` guard fails, so neither the `writeCalls` log nor the
`exported` log changes — and every child created under an unsampled
current span copies `sampled = false`, so once a root is unsampled the
whole trace is and no batch of that trace ever crosses into `write`. -/
theorem unsampled_never_handed_to_write (ctx ctx2 : Nat) (span : Span)
    (s s2 : TracerState) (name : String)
    (service resource span_type : Option String)
    (h : span.sampled = false) (h2 : s2.span_buffer ctx2 = some span) :
    (record ctx span s).writeCalls = s.writeCalls ∧
    (record ctx span s).exported = s.exported ∧
    (trace ctx2 name service resource span_type s2).1.sampled = false := by
  cases span with
  | mk n sv r t tid sid pid sa pa =>
    simp only [Span.sampled] at h
    subst h
    cases pa <;>
      simp [record, trace, h2, Span.sampled, Span.parent, Option.isNone]

/-! ## Witness fixture for the unsampled trace: an unsampled root current
in context 1 -/

def c7_span : Span := Span.mk "u" none none none 0 1 none false none

def c7_state : TracerState :=
  { initState with span_buffer := fun c => if c = 1 then some c7_span else none }

/-- C7 witness: recording the unsampled root on the default tracer leaves
both logs untouched, and a child opened under it is unsampled too. -/
theorem unsampled_never_handed_to_write_witness :
    (record 1 c7_span initState).writeCalls = initState.writeCalls ∧
    (record 1 c7_span initState).exported = initState.exported ∧
    (trace 1 "child" none none none c7_state).1.sampled = false :=
  unsampled_never_handed_to_write 1 1 c7_span initState c7_state "child"
    none none none rfl rfl

/-- C8: the tracer's `write` is a no-op on an empty list (only the
invocation log grows); on a non-empty list with the tracer enabled it
appends exactly the batch paired with the current service registry to the
Exporter's log; with the tracer disabled the batch is silently dropped.
Consequently, after `configure(enabled=False)` neither `record` (of any
span, however sampled, on any state) nor `trace` ever adds an Exporter
invocation, so completing a fully sampled trace on a disabled tracer
results in zero Exporter invocations. -/
theorem write_respects_enabled (s : TracerState) (spans : List Span)
    (ctx : Nat) (span : Span) (name : String)
    (service resource span_type : Option String) :
    (write spans s).exported =
      (if spans.isEmpty || !s.enabled then s.exported
       else s.exported ++ [(spans, s.services)]) ∧
    write [] s = { s with writeCalls := s.writeCalls ++ [[]] } ∧
    (record ctx span (configure (some false) none none none s)).exported =
      (configure (some false) none none none s).exported ∧
    (trace ctx name service resource span_type
        (configure (some false) none none none s)).2.exported =
      (configure (some false) none none none s).exported := by
  refine ⟨?_, ?_, ?_, ?_⟩
  · by_cases hsp : spans.isEmpty <;> by_cases he : s.enabled <;>
      simp [write, hsp, he]
  · simp [write]
  · cases hp : span.parent <;>
      by_cases hw : s.writer.isSome <;>
      by_cases hs : span.sampled <;>
      simp [record, write, configure, hp, hw, hs, Option.isNone]
  · cases hb : s.span_buffer ctx <;> simp [trace, configure, hb]
